import Mathlib

set_option maxHeartbeats 1000000

/-
Verification of src/backend/load_balancer.py against its specification.
The Python module is shallowly embedded below: machine state becomes
explicit records, the reconcile loop body becomes a state-transition
function, the control-plane endpoints become functions from state and
request to new state and an Except result, and the per-line socat
output parser becomes a fold over lines. Time is modelled in whole
seconds as Nat; process liveness (proc is not None and proc.poll() is
None) is the Boolean field procLive.
-/

namespace SocatBalancer

/-- CHECK_INTERVAL from load_balancer.py line 24. -/
def CHECK_INTERVAL : Nat := 5

/-- ROTATION_INTERVAL from load_balancer.py line 27. -/
def ROTATION_INTERVAL : Nat := 60

/-- Byte counters kept for one stats key. The same triple of counters
appears at service level inside service_state (lines 109-121) and at
backend level inside server_stats (lines 123-134). -/
structure Stats where
  bytes_transferred : Nat
  bytes_out : Nat
  bytes_in : Nat
deriving DecidableEq

/-- Python substring test pat in s, on character lists. -/
def containsAux (pat : List Char) : List Char → Bool
  | [] => pat.isEmpty
  | c :: cs => pat.isPrefixOf (c :: cs) || containsAux pat cs

/-- Python substring operator: containsSub s pat is true when pat occurs
inside s. -/
def containsSub (s pat : String) : Bool := containsAux pat.toList s.toList

/-- Longest run of decimal digits at the head of the list; the greedy
regex group of one or more digits. -/
def digitSpan : List Char → List Char
  | [] => []
  | c :: cs => if c.isDigit then c :: digitSpan cs else []

/-- Numeric value of a digit run. -/
def natOfDigits (ds : List Char) : Nat :=
  ds.foldl (fun a c => a * 10 + (c.toNat - 48)) 0

/-- First match of the regex searching for the literal characters of
length= followed by one or more digits, as re.search does in
read_socat_output (line 158): scan left to right, and at each position
where the literal occurs require at least one digit after it. -/
def findLengthMatch : List Char → Option Nat
  | [] => none
  | c :: cs =>
      if ("length=".toList).isPrefixOf (c :: cs) then
        (let ds := digitSpan ((c :: cs).drop 7)
         if ds.isEmpty then findLengthMatch cs else some (natOfDigits ds))
      else findLengthMatch cs

/-- Python str.strip on a character list: drop whitespace at both ends. -/
def stripChars (l : List Char) : List Char :=
  ((l.dropWhile Char.isWhitespace).reverse.dropWhile Char.isWhitespace).reverse

/-- Python str.strip, applied to each line at line 155. -/
def strip (s : String) : String := String.mk (stripChars s.toList)

/-- Body of the while loop of read_socat_output (lines 151-182) for one
line of socat output, acting on one triple of counters. The code applies
exactly this update to the service-level counters and, when a server key
is known, the identical update to the per-server counters. -/
def read_socat_line (s : Stats) (line0 : String) : Stats :=
  let line := strip line0
  if containsSub line "length=" then
    match findLengthMatch line.toList with
    | some n =>
        let s1 : Stats := { s with bytes_transferred := s.bytes_transferred + n }
        if containsSub line "> " then { s1 with bytes_out := s1.bytes_out + n }
        else if containsSub line "< " then { s1 with bytes_in := s1.bytes_in + n }
        else s1
    | none => s
  else s

/-- read_socat_output (lines 142-182): fold the per-line update over the
sequence of lines read from the socat process. -/
def read_socat_output (s : Stats) : List String → Stats
  | [] => s
  | l :: ls => read_socat_output (read_socat_line s l) ls

theorem read_socat_line_inv (s : Stats) (l : String)
    (hinv : s.bytes_transferred = s.bytes_in + s.bytes_out)
    (hdir : findLengthMatch (strip l).toList = none ∨
      containsSub (strip l) "> " = true ∨ containsSub (strip l) "< " = true) :
    (read_socat_line s l).bytes_transferred =
      (read_socat_line s l).bytes_in + (read_socat_line s l).bytes_out := by
  unfold read_socat_line
  simp only
  split
  · split
    · split
      · simp only
        omega
      · split
        · simp only
          omega
        · rcases hdir with h | h | h <;> simp_all
    · exact hinv
  · exact hinv

/-- C4 counterexample: a socat line carrying a length field but neither
the outbound marker nor the inbound marker increments bytes_transferred
only, so afterwards the total differs from the sum of the directional
counters. -/
theorem stats_total_counterexample :
    (read_socat_output ⟨0, 0, 0⟩ ["length=5"]).bytes_transferred ≠
      (read_socat_output ⟨0, 0, 0⟩ ["length=5"]).bytes_in +
        (read_socat_output ⟨0, 0, 0⟩ ["length=5"]).bytes_out := by
  decide

/-- C4 (amended): for every stats key the update of read_socat_output
preserves bytes_transferred = bytes_in + bytes_out provided every
byte-carrying line (one with a length=N match, which is what increments
the counters) also carries a direction marker, outbound or inbound;
lines without a length match, such as raw data lines, are free. A line
with a length field but no marker breaks the equality. -/
theorem stats_total_invariant (s : Stats) (lines : List String)
    (hinv : s.bytes_transferred = s.bytes_in + s.bytes_out)
    (hdir : ∀ l ∈ lines, findLengthMatch (strip l).toList = none ∨
      containsSub (strip l) "> " = true ∨ containsSub (strip l) "< " = true) :
    (read_socat_output s lines).bytes_transferred =
      (read_socat_output s lines).bytes_in +
        (read_socat_output s lines).bytes_out := by
  induction lines generalizing s with
  | nil => simpa [read_socat_output] using hinv
  | cons l ls ih =>
      simp only [read_socat_output]
      exact ih (read_socat_line s l)
        (read_socat_line_inv s l hinv (hdir l (by simp)))
        (fun x hx => hdir x (by simp [hx]))

theorem stats_total_invariant_witness :
    (read_socat_output ⟨0, 0, 0⟩
      ["> 2025 length=3", "3a 6f 0d", "< 2025 length=4"]).bytes_transferred =
      (read_socat_output ⟨0, 0, 0⟩
        ["> 2025 length=3", "3a 6f 0d", "< 2025 length=4"]).bytes_in +
        (read_socat_output ⟨0, 0, 0⟩
          ["> 2025 length=3", "3a 6f 0d", "< 2025 length=4"]).bytes_out :=
  stats_total_invariant ⟨0, 0, 0⟩ ["> 2025 length=3", "3a 6f 0d", "< 2025 length=4"]
    (by decide) (by decide)

/-- One configured upstream destination of a service, as stored in the
servers list of a service entry (config file and add_server, lines
476-478). The check_type default tcp of the config is resolved at load
time, so the field is a plain string here. -/
structure Backend where
  ip : String
  port : Int
  check_type : String
  http_path : Option String
deriving DecidableEq

/-- One configured service entry (name, listen_port, mode, servers). -/
structure Service where
  name : String
  listen_port : Int
  mode : String
  servers : List Backend
deriving DecidableEq

/-- Outcome of one attempt of socket.create_connection: success, the two
exception classes caught at lines 81 and 96 (socket.timeout and
ConnectionRefusedError), or any other OSError such as socket.gaierror or
EHOSTUNREACH, which no except clause covers. -/
inductive ConnectOutcome
  | connOk
  | connTimeout
  | connRefused
  | connError
deriving DecidableEq

/-- Outcome of one requests.get call: a response with a status code, or
any requests.RequestException (all transport errors of the requests
library derive from it and are caught at line 89). -/
inductive HttpOutcome
  | resp (status : Nat)
  | exn
deriving DecidableEq

/-- Network environment a single probe runs against; the relevant field
depends on the check kind of the backend. -/
structure ProbeEnv where
  conn : ConnectOutcome
  http : HttpOutcome
deriving DecidableEq

/-- is_server_alive (lines 77-82): True on connect, False on timeout or
connection refused; every other exception propagates to the caller,
modelled as the error branch of Except. -/
def is_server_alive (o : ConnectOutcome) : Except String Bool :=
  match o with
  | ConnectOutcome.connOk => Except.ok true
  | ConnectOutcome.connTimeout => Except.ok false
  | ConnectOutcome.connRefused => Except.ok false
  | ConnectOutcome.connError => Except.error "uncaught OSError"

/-- check_http (lines 84-90): UP iff the GET returned status 200; every
requests.RequestException is caught and yields False, so no exception
escapes. The url built from ip, port and http_path is abstracted by the
outcome. -/
def check_http (o : HttpOutcome) : Bool :=
  match o with
  | HttpOutcome.resp status => status == 200
  | HttpOutcome.exn => false

/-- check_smpp (lines 92-97): identical behaviour to is_server_alive,
including the two caught exception classes only. -/
def check_smpp (o : ConnectOutcome) : Except String Bool :=
  match o with
  | ConnectOutcome.connOk => Except.ok true
  | ConnectOutcome.connTimeout => Except.ok false
  | ConnectOutcome.connRefused => Except.ok false
  | ConnectOutcome.connError => Except.error "uncaught OSError"

/-- Probe dispatch of update_servers lines 202-207: http and smpp by
their checkers, anything else by the raw tcp connect. -/
def probe_server (srv : Backend) (env : ProbeEnv) : Except String Bool :=
  if srv.check_type == "http" then Except.ok (check_http env.http)
  else if srv.check_type == "smpp" then check_smpp env.conn
  else is_server_alive env.conn

/-- Status key built at line 209. -/
def statusKey (srv : Backend) : String :=
  srv.ip ++ ":" ++ toString srv.port ++ " (" ++ srv.check_type ++ ")"

/-- Status value built at line 210. -/
def statusVal (alive : Bool) : String := if alive then "🟢 UP" else "🔴 DOWN"

/-- Healthy-list entry built at line 212. -/
def healthyKey (srv : Backend) : String := srv.ip ++ ":" ++ toString srv.port

/-- Truth of an Except value. -/
def exceptOk {ε α : Type} : Except ε α → Bool
  | Except.ok _ => true
  | Except.error _ => false

/-- Boolean a probe produces when it does not raise; False as a dummy on
the error branch. -/
def probe_alive (srv : Backend) (env : ProbeEnv) : Bool :=
  match probe_server srv env with
  | Except.ok b => b
  | Except.error _ => false

/-- Health phase of one tick of update_servers for one service (lines
197-212): probe each configured server in order, building the status map
and the healthy list. The loop has no try block, so an exception raised
by a probe aborts the remaining servers (and in the source kills the
whole background thread); this is the error branch. -/
def health_tick : List (Backend × ProbeEnv) →
    Except String (List (String × String) × List String)
  | [] => Except.ok ([], [])
  | (srv, env) :: rest =>
      match probe_server srv env with
      | Except.error e => Except.error e
      | Except.ok alive =>
          match health_tick rest with
          | Except.error e => Except.error e
          | Except.ok (stat, healthy) =>
              Except.ok ((statusKey srv, statusVal alive) :: stat,
                if alive then healthyKey srv :: healthy else healthy)

/-- Status rows of a health phase in which no probe raises. -/
def statusList (entries : List (Backend × ProbeEnv)) : List (String × String) :=
  entries.map (fun be => (statusKey be.1, statusVal (probe_alive be.1 be.2)))

/-- Healthy entries of a health phase in which no probe raises. -/
def healthyList (entries : List (Backend × ProbeEnv)) : List String :=
  (entries.filter (fun be => probe_alive be.1 be.2)).map (fun be => healthyKey be.1)

/-- Response shape of GET /api/status (lines 413-415): the published
per-service status map wrapped under the key services. -/
structure StatusResponse where
  services : List (String × List (String × String))
deriving DecidableEq

/-- api_status (lines 413-415): returns the status dictionary as is. -/
def api_status (server_status : List (String × List (String × String))) :
    StatusResponse :=
  ⟨server_status⟩

/-- C7: a tcp backend whose connect raises an exception outside the two
caught classes (for example socket.gaierror on a bad host name, or
OSError EHOSTUNREACH) makes is_server_alive raise instead of returning
DOWN, and the raised exception aborts the probe loop before the
remaining backends are probed, killing the health-check thread. -/
theorem probe_exception_escapes :
    is_server_alive ConnectOutcome.connError = Except.error "uncaught OSError" ∧
    check_smpp ConnectOutcome.connError = Except.error "uncaught OSError" ∧
    health_tick
      [(⟨"10.0.0.1", 80, "tcp", none⟩, ⟨ConnectOutcome.connError, HttpOutcome.exn⟩),
       (⟨"10.0.0.2", 80, "tcp", none⟩, ⟨ConnectOutcome.connOk, HttpOutcome.exn⟩)]
      = Except.error "uncaught OSError" :=
  ⟨rfl, rfl, rfl⟩

/-- C8 counterexample: a probe that succeeds publishes the status string
with a green-circle emoji prefix, which is not the exact string UP the
claim states. -/
theorem status_string_counterexample :
    health_tick [(⟨"1.1.1.1", 80, "tcp", none⟩,
        ⟨ConnectOutcome.connOk, HttpOutcome.exn⟩)]
      = Except.ok ([("1.1.1.1:80 (tcp)", "🟢 UP")], ["1.1.1.1:80"]) ∧
    ("🟢 UP" : String) ≠ "UP" ∧ ("🔴 DOWN" : String) ≠ "DOWN" :=
  ⟨rfl, by decide, by decide⟩

/-- C8 (amended): when no probe raises, the health phase publishes, for
each configured backend in order, the key ip:port (check_type) mapped to
the exact string with emoji prefix: green UP when the probe succeeded
and red DOWN when it failed; api_status returns this published map
unchanged under the services key. -/
theorem health_status_spec (entries : List (Backend × ProbeEnv))
    (h : ∀ be ∈ entries, exceptOk (probe_server be.1 be.2) = true) :
    health_tick entries = Except.ok (statusList entries, healthyList entries) ∧
    ∀ m, (api_status m).services = m := by
  refine ⟨?_, fun m => rfl⟩
  induction entries with
  | nil => rfl
  | cons be rest ih =>
      have hrest := ih (fun x hx => h x (List.mem_cons_of_mem _ hx))
      have hbe := h be (List.mem_cons_self _ _)
      obtain ⟨srv, env⟩ := be
      cases hps : probe_server srv env with
      | error e => simp [exceptOk, hps] at hbe
      | ok alive =>
          cases alive <;>
            simp [health_tick, hps, hrest, statusList, healthyList,
              List.filter_cons, probe_alive, healthyKey]

theorem health_status_spec_witness :
    health_tick [(⟨"2.2.2.2", 81, "tcp", none⟩,
        ⟨ConnectOutcome.connRefused, HttpOutcome.exn⟩)]
      = Except.ok ([("2.2.2.2:81 (tcp)", "🔴 DOWN")], []) ∧
    (api_status [("svc", [("2.2.2.2:81 (tcp)", "🔴 DOWN")])]).services
      = [("svc", [("2.2.2.2:81 (tcp)", "🔴 DOWN")])] :=
  ⟨(health_status_spec [(⟨"2.2.2.2", 81, "tcp", none⟩,
        ⟨ConnectOutcome.connRefused, HttpOutcome.exn⟩)] (by decide)).1,
   (health_status_spec [(⟨"2.2.2.2", 81, "tcp", none⟩,
        ⟨ConnectOutcome.connRefused, HttpOutcome.exn⟩)] (by decide)).2 _⟩

/-- Per-service runtime record of service_state (lines 109-121), without
the byte counters treated separately in Stats. The field procLive stands
for: the stored process handle is not None and proc.poll() is None. -/
structure ServiceState where
  last_active : Option String
  index : Nat
  procLive : Bool
  restart_count : Nat
  last_start_time : Option Nat
deriving DecidableEq

/-- Routing event text built at lines 235-236. -/
def routingMsg (listen_port : Int) (selected name mode : String) : String :=
  "Routing traffic on port " ++ toString listen_port ++ " to " ++ selected ++
    " for service \x27" ++ name ++ "\x27 (mode: " ++ mode ++ ")"

/-- Outage event text built at line 273. -/
def noHealthyMsg (listen_port : Int) (name : String) : String :=
  "No healthy servers available on port " ++ toString listen_port ++
    " for service \x27" ++ name ++ "\x27"

/-- Result of one reconcile tick for one service: the new runtime state,
the broadcast events, and whether a rotation (terminate old socat, start
a new one) was applied. -/
structure TickResult where
  state : ServiceState
  events : List String
  rotated : Bool
deriving DecidableEq

/-- Rotation block of update_servers (lines 235-271): emit the routing
event, bump restart_count, stamp last_start_time, terminate the previous
process if alive, start the new socat listener and record the selected
backend as last_active. -/
def rotateTo (name mode : String) (listen_port : Int) (st : ServiceState)
    (selected : String) (now : Nat) : TickResult :=
  { state := { st with
      restart_count := st.restart_count + 1,
      last_start_time := some now,
      procLive := true,
      last_active := some selected },
    events := [routingMsg listen_port selected name mode],
    rotated := true }

/-- Selection and forwarder phase of one tick of update_servers for one
service (lines 214-281), taking the healthy list computed by the health
phase and the current time. With healthy backends: in round-robin mode,
skip when a process is alive and less than ROTATION_INTERVAL elapsed
since last_start_time (None reads as 0, line 220), otherwise select
healthy[index mod len] and increment the cursor; in any other mode
(failover, the default) select the first healthy backend and skip only
when it equals last_active and a process is alive. Without healthy
backends: emit the outage event, terminate any live process and clear
last_active (lines 272-281). -/
def serviceTick (name : String) (listen_port : Int) (mode : String)
    (st : ServiceState) (healthy : List String) (now : Nat) : TickResult :=
  match healthy with
  | [] =>
      { state := { st with last_active := none, procLive := false },
        events := [noHealthyMsg listen_port name],
        rotated := false }
  | h :: t =>
      if mode = "round-robin" then
        if st.procLive = true ∧ now - (st.last_start_time.getD 0) < ROTATION_INTERVAL then
          { state := st, events := [], rotated := false }
        else
          let selected := (h :: t).get
            ⟨st.index % (h :: t).length, Nat.mod_lt _ (Nat.succ_pos _)⟩
          rotateTo name mode listen_port { st with index := st.index + 1 } selected now
      else
        if st.last_active = some h ∧ st.procLive = true then
          { state := st, events := [], rotated := false }
        else
          rotateTo name mode listen_port st h now

/-- Iterated reconcile ticks at the given sequence of times, the healthy
list held fixed. -/
def runTicks (name : String) (listen_port : Int) (mode : String)
    (healthy : List String) (st : ServiceState) : List Nat → ServiceState
  | [] => st
  | now :: rest =>
      runTicks name listen_port mode healthy
        (serviceTick name listen_port mode st healthy now).state rest

theorem failover_skip (name : String) (lp : Int) (h : String) (t : List String)
    (st : ServiceState) (now : Nat)
    (hla : st.last_active = some h) (hp : st.procLive = true) :
    serviceTick name lp "failover" st (h :: t) now =
      { state := st, events := [], rotated := false } := by
  simp [serviceTick, hla, hp]

theorem failover_rotate (name : String) (lp : Int) (h : String) (t : List String)
    (st : ServiceState) (now : Nat)
    (hc : ¬(st.last_active = some h ∧ st.procLive = true)) :
    serviceTick name lp "failover" st (h :: t) now =
      rotateTo name "failover" lp st h now := by
  simp only [serviceTick]
  rw [if_neg (by decide), if_neg hc]

theorem failover_tick_active (name : String) (lp : Int) (h : String)
    (t : List String) (st : ServiceState) (now : Nat) :
    (serviceTick name lp "failover" st (h :: t) now).state.last_active = some h ∧
    (serviceTick name lp "failover" st (h :: t) now).state.procLive = true := by
  by_cases hc : st.last_active = some h ∧ st.procLive = true
  · rw [failover_skip name lp h t st now hc.1 hc.2]
    exact ⟨hc.1, hc.2⟩
  · rw [failover_rotate name lp h t st now hc]
    exact ⟨rfl, rfl⟩

theorem failover_fixpoint (name : String) (lp : Int) (h : String)
    (t : List String) (st : ServiceState)
    (hla : st.last_active = some h) (hp : st.procLive = true) :
    ∀ nows, runTicks name lp "failover" (h :: t) st nows = st := by
  intro nows
  induction nows with
  | nil => rfl
  | cons n rest ih =>
      show runTicks name lp "failover" (h :: t)
        (serviceTick name lp "failover" st (h :: t) n).state rest = st
      rw [failover_skip name lp h t st n hla hp]
      exact ih

/-- C1: in failover mode with a non-empty UP list, the selected backend
is the first UP backend in configured order; a rotation happens iff that
backend differs from last_active or no listener process is alive, and a
skipped tick changes nothing; consequently, for a stable UP list, the
state after one tick is a fixed point of every further tick, so
last_active stays the first UP backend and restart_count never increases
again while the first UP backend is unchanged. -/
theorem failover_selection_stability (name : String) (lp : Int) (h : String)
    (t : List String) (st : ServiceState) (now : Nat) :
    ((serviceTick name lp "failover" st (h :: t) now).rotated = true ↔
      (st.last_active ≠ some h ∨ st.procLive = false)) ∧
    ((serviceTick name lp "failover" st (h :: t) now).rotated = true →
      (serviceTick name lp "failover" st (h :: t) now).state =
        { st with
          last_active := some h
          procLive := true
          restart_count := st.restart_count + 1
          last_start_time := some now } ∧
      (serviceTick name lp "failover" st (h :: t) now).events =
        [routingMsg lp h name "failover"]) ∧
    ((serviceTick name lp "failover" st (h :: t) now).rotated = false →
      (serviceTick name lp "failover" st (h :: t) now).state = st ∧
      (serviceTick name lp "failover" st (h :: t) now).events = []) ∧
    (∀ nows, runTicks name lp "failover" (h :: t)
        (serviceTick name lp "failover" st (h :: t) now).state nows =
      (serviceTick name lp "failover" st (h :: t) now).state) := by
  refine ⟨?_, ?_, ?_, ?_⟩
  · by_cases hc : st.last_active = some h ∧ st.procLive = true
    · rw [failover_skip name lp h t st now hc.1 hc.2]
      simp [hc.1, hc.2]
    · rw [failover_rotate name lp h t st now hc]
      simp only [rotateTo, true_iff]
      by_cases hla : st.last_active = some h
      · cases hp : st.procLive with
        | false => exact Or.inr rfl
        | true => exact absurd ⟨hla, hp⟩ hc
      · exact Or.inl hla
  · intro hrot
    by_cases hc : st.last_active = some h ∧ st.procLive = true
    · rw [failover_skip name lp h t st now hc.1 hc.2] at hrot
      exact absurd hrot (by simp)
    · rw [failover_rotate name lp h t st now hc]
      exact ⟨rfl, rfl⟩
  · intro hns
    by_cases hc : st.last_active = some h ∧ st.procLive = true
    · rw [failover_skip name lp h t st now hc.1 hc.2]
      exact ⟨rfl, rfl⟩
    · rw [failover_rotate name lp h t st now hc] at hns
      exact absurd hns (by simp [rotateTo])
  · have hact := failover_tick_active name lp h t st now
    exact fun nows => failover_fixpoint name lp h t _ hact.1 hact.2 nows

theorem failover_selection_stability_witness :
    (serviceTick "A" 7000 "failover" ⟨none, 0, false, 0, none⟩
        ["1.1.1.1:80", "2.2.2.2:80"] 5).state =
      { last_active := some "1.1.1.1:80", index := 0, procLive := true,
        restart_count := 1, last_start_time := some 5 } ∧
    (serviceTick "A" 7000 "failover" ⟨none, 0, false, 0, none⟩
        ["1.1.1.1:80", "2.2.2.2:80"] 5).events =
      [routingMsg 7000 "1.1.1.1:80" "A" "failover"] :=
  (failover_selection_stability "A" 7000 "1.1.1.1:80" ["2.2.2.2:80"]
    ⟨none, 0, false, 0, none⟩ 5).2.1 (by decide)

/-- C2: in round-robin mode with a non-empty UP list: when a listener
process is alive and fewer than ROTATION_INTERVAL seconds have elapsed
since last_start_time, the tick is skipped with no rotation, no event
and the cursor unchanged; otherwise the backend at position cursor mod
length of the healthy list is selected and the cursor advances by
exactly one for that applied rotation. -/
theorem roundrobin_tick_spec (name : String) (lp : Int) (h : String)
    (t : List String) (st : ServiceState) (now : Nat) :
    ((st.procLive = true ∧ now - st.last_start_time.getD 0 < ROTATION_INTERVAL) →
      serviceTick name lp "round-robin" st (h :: t) now =
        { state := st, events := [], rotated := false }) ∧
    (¬(st.procLive = true ∧ now - st.last_start_time.getD 0 < ROTATION_INTERVAL) →
      serviceTick name lp "round-robin" st (h :: t) now =
        rotateTo name "round-robin" lp { st with index := st.index + 1 }
          ((h :: t).get ⟨st.index % (h :: t).length, Nat.mod_lt _ (Nat.succ_pos _)⟩)
          now ∧
      (serviceTick name lp "round-robin" st (h :: t) now).state.index =
        st.index + 1 ∧
      (serviceTick name lp "round-robin" st (h :: t) now).state.last_active =
        some ((h :: t).get
          ⟨st.index % (h :: t).length, Nat.mod_lt _ (Nat.succ_pos _)⟩) ∧
      (serviceTick name lp "round-robin" st (h :: t) now).state.restart_count =
        st.restart_count + 1 ∧
      (serviceTick name lp "round-robin" st (h :: t) now).rotated = true) := by
  constructor
  · intro hcond
    simp only [serviceTick]
    rw [if_pos trivial, if_pos hcond]
  · intro hcond
    have hred : serviceTick name lp "round-robin" st (h :: t) now =
        rotateTo name "round-robin" lp { st with index := st.index + 1 }
          ((h :: t).get ⟨st.index % (h :: t).length, Nat.mod_lt _ (Nat.succ_pos _)⟩)
          now := by
      simp only [serviceTick]
      rw [if_pos trivial, if_neg hcond]
    rw [hred]
    exact ⟨rfl, rfl, rfl, rfl, rfl⟩

theorem roundrobin_tick_spec_witness :
    serviceTick "B" 7100 "round-robin" ⟨some "X", 1, true, 1, some 100⟩
        ["X", "Y", "Z"] 130 =
      { state := ⟨some "X", 1, true, 1, some 100⟩, events := [], rotated := false } ∧
    (serviceTick "B" 7100 "round-robin" ⟨some "X", 2, true, 1, some 100⟩
        ["X", "Y", "Z"] 160).state.last_active = some "Z" :=
  ⟨(roundrobin_tick_spec "B" 7100 "X" ["Y", "Z"]
      ⟨some "X", 1, true, 1, some 100⟩ 130).1 (by decide),
   ((roundrobin_tick_spec "B" 7100 "X" ["Y", "Z"]
      ⟨some "X", 2, true, 1, some 100⟩ 160).2 (by decide)).2.2.1⟩

/-- C3: on a reconcile tick with an empty UP list, the forwarder tears
down any live listener process, sets last_active to none and emits the
no-healthy-servers event with the listen port and the service name; the
cursor, restart_count and last_start_time are untouched. -/
theorem no_healthy_teardown (name : String) (lp : Int) (mode : String)
    (st : ServiceState) (now : Nat) :
    (serviceTick name lp mode st [] now).state.last_active = none ∧
    (serviceTick name lp mode st [] now).state.procLive = false ∧
    (serviceTick name lp mode st [] now).events =
      ["No healthy servers available on port " ++ toString lp ++
        " for service \x27" ++ name ++ "\x27"] ∧
    (serviceTick name lp mode st [] now).state.restart_count = st.restart_count ∧
    (serviceTick name lp mode st [] now).state.index = st.index ∧
    (serviceTick name lp mode st [] now).state.last_start_time =
      st.last_start_time :=
  ⟨rfl, rfl, rfl, rfl, rfl, rfl⟩

/-- Error payload of an HTTPException: status code and detail text. -/
abbrev ApiErr := Nat × String

/-- Request body of POST /api/add_server (lines 336-341). -/
structure AddServerRequest where
  service : String
  ip : String
  port : Int
  check_type : String
  http_path : String
deriving DecidableEq

/-- Request body of POST /api/edit_server (lines 328-334). -/
structure EditServerRequest where
  service : String
  ip : String
  port : Int
  new_ip : Option String
  new_port : Option Int
  check_type : Option String
deriving DecidableEq

/-- Request body of POST /api/edit_service (lines 357-361). -/
structure EditServiceRequest where
  name : String
  new_name : Option String
  listen_port : Option Int
  mode : Option String
deriving DecidableEq

/-- Python truthiness of an optional string: None and the empty string
are falsy. -/
def truthyStr : Option String → Option String
  | some s => if s = "" then none else some s
  | none => none

/-- Python truthiness of an optional int: None and 0 are falsy. -/
def truthyInt : Option Int → Option Int
  | some i => if i = 0 then none else some i
  | none => none

/-- Replace the first service satisfying p by f of it; the in-place
mutation of the object found by next(...) in the handlers. -/
def updateFirst (p : Service → Bool) (f : Service → Service) :
    List Service → List Service
  | [] => []
  | s :: rest => if p s then f s :: rest else s :: updateFirst p f rest

/-- add_server endpoint (lines 454-486): find the service, validate the
ip with the standard-library parser (external to the repository, passed
in as the predicate ipValid), validate the port range, reject an
existing (ip, port) identity, and otherwise append the new backend. The
per-server stats initialisation (lines 481-484) touches only the stats
registry and the save_config call only the disk; both are modelled with
the operations whose claims concern them. -/
def add_server (ipValid : String → Bool) (services : List Service)
    (req : AddServerRequest) : List Service × Except ApiErr String :=
  match services.find? (fun s => s.name == req.service) with
  | none => (services, Except.error (404, "Service group not found"))
  | some svc =>
      if ipValid req.ip = false then
        (services, Except.error (400, "Invalid IP address"))
      else if ¬(1 ≤ req.port ∧ req.port ≤ 65535) then
        (services, Except.error (400, "Port number must be between 1 and 65535"))
      else if svc.servers.any (fun s => s.ip == req.ip && s.port == req.port) then
        (services, Except.error (400, "Server already exists in service group"))
      else
        (updateFirst (fun s => s.name == req.service)
          (fun s => { s with servers := s.servers ++
            [{ ip := req.ip
               port := req.port
               check_type := req.check_type
               http_path := if req.check_type == "http" then some req.http_path
                 else none }] }) services,
         Except.ok ("Server " ++ req.ip ++ ":" ++ toString req.port ++
           " added successfully to service \x27" ++ req.service ++ "\x27"))

/-- C6: add_server returns NotFound(404) when the named service does not
exist, Validation(400) when the ip does not parse or the port is outside
1..65535, Conflict(400) when a backend with the same (ip, port) identity
already exists, and otherwise ok, appending the new backend to the
servers list of that service. -/
theorem add_server_spec (ipValid : String → Bool) (services : List Service)
    (req : AddServerRequest) :
    (services.find? (fun s => s.name == req.service) = none →
      add_server ipValid services req =
        (services, Except.error (404, "Service group not found"))) ∧
    (∀ svc, services.find? (fun s => s.name == req.service) = some svc →
      ((ipValid req.ip = false →
        add_server ipValid services req =
          (services, Except.error (400, "Invalid IP address"))) ∧
      (ipValid req.ip = true → ¬(1 ≤ req.port ∧ req.port ≤ 65535) →
        add_server ipValid services req =
          (services,
           Except.error (400, "Port number must be between 1 and 65535"))) ∧
      (ipValid req.ip = true → 1 ≤ req.port ∧ req.port ≤ 65535 →
        svc.servers.any (fun s => s.ip == req.ip && s.port == req.port) = true →
        add_server ipValid services req =
          (services, Except.error (400, "Server already exists in service group"))) ∧
      (ipValid req.ip = true → 1 ≤ req.port ∧ req.port ≤ 65535 →
        svc.servers.any (fun s => s.ip == req.ip && s.port == req.port) = false →
        add_server ipValid services req =
          (updateFirst (fun s => s.name == req.service)
            (fun s => { s with servers := s.servers ++
              [{ ip := req.ip
                 port := req.port
                 check_type := req.check_type
                 http_path := if req.check_type == "http" then some req.http_path
                   else none }] }) services,
           Except.ok ("Server " ++ req.ip ++ ":" ++ toString req.port ++
             " added successfully to service \x27" ++ req.service ++ "\x27"))))) := by
  constructor
  · intro hf
    simp [add_server, hf]
  · intro svc hf
    refine ⟨?_, ?_, ?_, ?_⟩
    · intro hip
      simp [add_server, hf, hip]
    · intro hip hport
      simp [add_server, hf, hip, hport]
    · intro hip hport hdup
      simp [add_server, hf, hip, hport.1, hport.2, hdup]
    · intro hip hport hdup
      simp [add_server, hf, hip, hport.1, hport.2, hdup]

/-- Sample configured service used for concrete evaluations. -/
def svcA : Service :=
  { name := "A"
    listen_port := 7000
    mode := "failover"
    servers := [{ ip := "1.1.1.1", port := 80, check_type := "tcp", http_path := none }] }

theorem add_server_spec_witness :
    add_server (fun _ => true) [svcA] ⟨"A", "9.9.9.9", 0, "tcp", "/"⟩ =
      ([svcA], Except.error (400, "Port number must be between 1 and 65535")) ∧
    add_server (fun _ => true) [svcA] ⟨"A", "9.9.9.9", 65536, "tcp", "/"⟩ =
      ([svcA], Except.error (400, "Port number must be between 1 and 65535")) ∧
    add_server (fun _ => true) [svcA] ⟨"A", "9.9.9.9", 1, "tcp", "/"⟩ =
      ([{ svcA with servers := svcA.servers ++ [⟨"9.9.9.9", 1, "tcp", none⟩] }],
       Except.ok "Server 9.9.9.9:1 added successfully to service \x27A\x27") ∧
    add_server (fun _ => true) [svcA] ⟨"A", "9.9.9.9", 65535, "tcp", "/"⟩ =
      ([{ svcA with servers := svcA.servers ++ [⟨"9.9.9.9", 65535, "tcp", none⟩] }],
       Except.ok "Server 9.9.9.9:65535 added successfully to service \x27A\x27") ∧
    add_server (fun _ => false) [svcA] ⟨"A", "not-an-ip", 80, "tcp", "/"⟩ =
      ([svcA], Except.error (400, "Invalid IP address")) ∧
    add_server (fun _ => true) [] ⟨"A", "9.9.9.9", 80, "tcp", "/"⟩ =
      ([], Except.error (404, "Service group not found")) ∧
    add_server (fun _ => true) [svcA] ⟨"A", "1.1.1.1", 80, "tcp", "/"⟩ =
      ([svcA], Except.error (400, "Server already exists in service group")) :=
  ⟨((add_server_spec (fun _ => true) [svcA] ⟨"A", "9.9.9.9", 0, "tcp", "/"⟩).2
      svcA rfl).2.1 rfl (by decide),
   ((add_server_spec (fun _ => true) [svcA] ⟨"A", "9.9.9.9", 65536, "tcp", "/"⟩).2
      svcA rfl).2.1 rfl (by decide),
   ((add_server_spec (fun _ => true) [svcA] ⟨"A", "9.9.9.9", 1, "tcp", "/"⟩).2
      svcA rfl).2.2.2 rfl (by decide) rfl,
   ((add_server_spec (fun _ => true) [svcA] ⟨"A", "9.9.9.9", 65535, "tcp", "/"⟩).2
      svcA rfl).2.2.2 rfl (by decide) rfl,
   ((add_server_spec (fun _ => false) [svcA] ⟨"A", "not-an-ip", 80, "tcp", "/"⟩).2
      svcA rfl).1 rfl,
   (add_server_spec (fun _ => true) [] ⟨"A", "9.9.9.9", 80, "tcp", "/"⟩).1 rfl,
   ((add_server_spec (fun _ => true) [svcA] ⟨"A", "1.1.1.1", 80, "tcp", "/"⟩).2
      svcA rfl).2.2.1 rfl (by decide) rfl⟩

/-- Field updates of edit_server (lines 443-448): each new value is
applied only when truthy, in the order ip, port, check_type. -/
def applyServerEdit (req : EditServerRequest) (srv : Backend) : Backend :=
  let srv1 := match truthyStr req.new_ip with
    | some s => { srv with ip := s }
    | none => srv
  let srv2 := match truthyInt req.new_port with
    | some p => { srv1 with port := p }
    | none => srv1
  match truthyStr req.check_type with
  | some c => { srv2 with check_type := c }
  | none => srv2

/-- Replace the first backend satisfying p by f of it; none when no
backend matches, in which case the loop of lines 441-452 falls through
to the server-not-found 404. -/
def updateFirstServer (p : Backend → Bool) (f : Backend → Backend) :
    List Backend → Option (List Backend)
  | [] => none
  | s :: rest =>
      if p s then some (f s :: rest)
      else (updateFirstServer p f rest).map (fun l => s :: l)

/-- edit_server endpoint (lines 428-452): find the service, find the
first backend with the requested (ip, port) identity, apply the truthy
new values without any validation, and persist. -/
def edit_server (services : List Service) (req : EditServerRequest) :
    List Service × Except ApiErr String :=
  match services.find? (fun s => s.name == req.service) with
  | none => (services, Except.error (404, "Service group not found"))
  | some svc =>
      match updateFirstServer (fun s => s.ip == req.ip && s.port == req.port)
          (applyServerEdit req) svc.servers with
      | none => (services, Except.error (404, "Server not found in service group"))
      | some servers2 =>
          (updateFirst (fun s => s.name == req.service)
            (fun s => { s with servers := servers2 }) services,
           Except.ok ("Server " ++ req.ip ++ ":" ++ toString req.port ++
             " edited successfully in service \x27" ++ req.service ++ "\x27"))

/-- C10 counterexample: with new_port = 0, a value outside 1..65535, the
call returns ok but the backend keeps its old port 80: zero is falsy in
Python, so it is silently ignored instead of being stored as supplied. -/
theorem edit_server_port_zero_counterexample :
    edit_server [svcA] ⟨"A", "1.1.1.1", 80, none, some 0, none⟩ =
      ([svcA],
       Except.ok "Server 1.1.1.1:80 edited successfully in service \x27A\x27") ∧
    (0 : Int) ≠ 80 := by
  constructor
  · rfl
  · decide

/-- C10 (amended): edit_server validates nothing: for an existing
service and backend it always returns ok; a truthy new value (a
non-empty new_ip or check_type, a non-zero new_port) is stored exactly
as supplied even when it is not a parsable IP, is outside 1..65535, or
is not one of tcp, http, smpp; a falsy value (absent, empty string, or
zero) leaves the field unchanged; the only error outcomes are the two
NotFound cases, so no Validation outcome exists. -/
theorem edit_server_spec (services : List Service) (req : EditServerRequest) :
    (services.find? (fun s => s.name == req.service) = none →
      edit_server services req =
        (services, Except.error (404, "Service group not found"))) ∧
    (∀ svc, services.find? (fun s => s.name == req.service) = some svc →
      (updateFirstServer (fun s => s.ip == req.ip && s.port == req.port)
          (applyServerEdit req) svc.servers = none →
        edit_server services req =
          (services, Except.error (404, "Server not found in service group"))) ∧
      (∀ servers2,
        updateFirstServer (fun s => s.ip == req.ip && s.port == req.port)
          (applyServerEdit req) svc.servers = some servers2 →
        edit_server services req =
          (updateFirst (fun s => s.name == req.service)
            (fun s => { s with servers := servers2 }) services,
           Except.ok ("Server " ++ req.ip ++ ":" ++ toString req.port ++
             " edited successfully in service \x27" ++ req.service ++ "\x27")))) ∧
    (∀ srv : Backend,
      (∀ s, req.new_ip = some s → s ≠ "" → (applyServerEdit req srv).ip = s) ∧
      (∀ p, req.new_port = some p → p ≠ 0 → (applyServerEdit req srv).port = p) ∧
      (∀ c, req.check_type = some c → c ≠ "" →
        (applyServerEdit req srv).check_type = c) ∧
      (req.new_ip = none ∨ req.new_ip = some "" →
        (applyServerEdit req srv).ip = srv.ip) ∧
      (req.new_port = none ∨ req.new_port = some 0 →
        (applyServerEdit req srv).port = srv.port) ∧
      (req.check_type = none ∨ req.check_type = some "" →
        (applyServerEdit req srv).check_type = srv.check_type)) := by
  refine ⟨?_, ?_, ?_⟩
  · intro hf
    simp [edit_server, hf]
  · intro svc hf
    constructor
    · intro hu
      simp [edit_server, hf, hu]
    · intro servers2 hu
      simp [edit_server, hf, hu]
  · intro srv
    refine ⟨?_, ?_, ?_, ?_, ?_, ?_⟩
    · intro s hs hnz
      have hti : truthyStr req.new_ip = some s := by simp [truthyStr, hs, hnz]
      rcases htp : truthyInt req.new_port with _ | p <;>
        rcases htc : truthyStr req.check_type with _ | c <;>
          simp [applyServerEdit, hti, htp, htc]
    · intro p hp hnz
      have htp : truthyInt req.new_port = some p := by simp [truthyInt, hp, hnz]
      rcases hti : truthyStr req.new_ip with _ | s <;>
        rcases htc : truthyStr req.check_type with _ | c <;>
          simp [applyServerEdit, htp, hti, htc]
    · intro c hc hnz
      have htc : truthyStr req.check_type = some c := by simp [truthyStr, hc, hnz]
      rcases hti : truthyStr req.new_ip with _ | s <;>
        rcases htp : truthyInt req.new_port with _ | p <;>
          simp [applyServerEdit, htc, hti, htp]
    · intro hfalsy
      have hti : truthyStr req.new_ip = none := by
        rcases hfalsy with h | h <;> simp [truthyStr, h]
      rcases htp : truthyInt req.new_port with _ | p <;>
        rcases htc : truthyStr req.check_type with _ | c <;>
          simp [applyServerEdit, hti, htp, htc]
    · intro hfalsy
      have htp : truthyInt req.new_port = none := by
        rcases hfalsy with h | h <;> simp [truthyInt, h]
      rcases hti : truthyStr req.new_ip with _ | s <;>
        rcases htc : truthyStr req.check_type with _ | c <;>
          simp [applyServerEdit, htp, hti, htc]
    · intro hfalsy
      have htc : truthyStr req.check_type = none := by
        rcases hfalsy with h | h <;> simp [truthyStr, h]
      rcases hti : truthyStr req.new_ip with _ | s <;>
        rcases htp : truthyInt req.new_port with _ | p <;>
          simp [applyServerEdit, htc, hti, htp]

theorem edit_server_spec_witness :
    edit_server [svcA] ⟨"A", "1.1.1.1", 80, some "not-an-ip", some 70000, some "bogus"⟩ =
      ([{ svcA with servers := [⟨"not-an-ip", 70000, "bogus", none⟩] }],
       Except.ok "Server 1.1.1.1:80 edited successfully in service \x27A\x27") :=
  ((edit_server_spec [svcA]
      ⟨"A", "1.1.1.1", 80, some "not-an-ip", some 70000, some "bogus"⟩).2.1
    svcA rfl).2 [⟨"not-an-ip", 70000, "bogus", none⟩] rfl

/-- Steps of edit_service after the rename (lines 557-567), with curName
the current name of the service object: apply a truthy listen_port, then
validate and apply a truthy mode. An invalid mode raises after the
earlier changes are already applied and before any save, which the pair
result captures as the mutated list together with the error. -/
def edit_service_rest (services : List Service) (curName : String)
    (req : EditServiceRequest) : List Service × Option ApiErr :=
  let s2 := match truthyInt req.listen_port with
    | some p => updateFirst (fun s => s.name == curName)
        (fun s => { s with listen_port := p }) services
    | none => services
  match truthyStr req.mode with
  | some m =>
      if m = "failover" ∨ m = "round-robin" then
        (updateFirst (fun s => s.name == curName)
          (fun s => { s with mode := m }) s2, none)
      else (s2, some (400, "Invalid mode"))
  | none => (s2, none)

/-- In-memory mutation of edit_service (lines 546-567), before the
save_config call: find the service (404 when absent), check a truthy
rename for a collision and apply it, then the remaining steps. The
reassignment of the service_state entry on rename and the listener
termination on a port change touch only runtime fields and never the
configuration or the disk. -/
def apply_edit_service (services : List Service) (req : EditServiceRequest) :
    List Service × Option ApiErr :=
  match services.find? (fun s => s.name == req.name) with
  | none => (services, some (404, "Service not found"))
  | some svc0 =>
      match truthyStr req.new_name with
      | some nn =>
          if services.any (fun s => s.name == nn) then
            (services, some (400, "A service with that new name already exists"))
          else
            edit_service_rest (updateFirst (fun s => s.name == svc0.name)
              (fun s => { s with name := nn }) services) nn req
      | none => edit_service_rest services svc0.name req

/-- save_config (lines 66-68) with an explicit disk image and a flag
telling whether the write succeeds: on success the entire services list
is persisted; on failure the open or the dump raises, leaving the
previous disk content. -/
def save_config (services : List Service) (disk : Option (List Service))
    (writeOk : Bool) : Option (List Service) × Bool :=
  if writeOk then (some services, true) else (disk, false)

/-- edit_service endpoint (lines 546-569): apply the in-memory mutation,
then persist with save_config. An exception from the write propagates
out of the handler as an internal 500; the in-memory mutation is neither
rolled back nor retried. -/
def edit_service (services : List Service) (disk : Option (List Service))
    (req : EditServiceRequest) (writeOk : Bool) :
    List Service × Option (List Service) × Except ApiErr String :=
  match apply_edit_service services req with
  | (s2, some e) => (s2, disk, Except.error e)
  | (s2, none) =>
      match save_config s2 disk writeOk with
      | (d2, true) =>
          (s2, d2, Except.ok ("Service \x27" ++ req.name ++
            "\x27 updated successfully."))
      | (d2, false) => (s2, d2, Except.error (500, "Internal Server Error"))

/-- C5 counterexample: a valid mode change whose disk write fails is
reported as an error, yet the in-memory list keeps the mutation (no
rollback, no retry) and the persisted content stays stale, so the
in-memory state and the persisted file diverge. -/
theorem edit_service_write_fail_counterexample :
    edit_service [svcA] (some [svcA]) ⟨"A", none, none, some "round-robin"⟩ false =
      ([{ svcA with mode := "round-robin" }], some [svcA],
       Except.error (500, "Internal Server Error")) ∧
    [{ svcA with mode := "round-robin" }] ≠ [svcA] := by
  constructor
  · rfl
  · decide

/-- C5 (amended): when the in-memory mutation succeeds and the disk
write succeeds, the entire mutated services list is persisted, so the
file reflects memory; when the disk write fails, the handler reports an
internal error but keeps the in-memory mutation (no rollback) and leaves
the previous disk content (no retry), so memory and disk diverge
whenever the mutation changed anything. -/
theorem edit_service_persistence (services : List Service)
    (disk : Option (List Service)) (req : EditServiceRequest)
    (hok : (apply_edit_service services req).2 = none) :
    edit_service services disk req true =
      ((apply_edit_service services req).1,
       some (apply_edit_service services req).1,
       Except.ok ("Service \x27" ++ req.name ++ "\x27 updated successfully.")) ∧
    edit_service services disk req false =
      ((apply_edit_service services req).1, disk,
       Except.error (500, "Internal Server Error")) := by
  rcases hae : apply_edit_service services req with ⟨s2, e2⟩
  rw [hae] at hok
  simp only at hok
  subst hok
  constructor <;> simp [edit_service, hae, save_config]

theorem edit_service_persistence_witness :
    edit_service [svcA] (some [svcA]) ⟨"A", none, none, some "round-robin"⟩ true =
      ([{ svcA with mode := "round-robin" }],
       some [{ svcA with mode := "round-robin" }],
       Except.ok "Service \x27A\x27 updated successfully.") :=
  (edit_service_persistence [svcA] (some [svcA])
    ⟨"A", none, none, some "round-robin"⟩ rfl).1

/-- Mutable state relevant to remove_service: the configured services,
the per-service runtime records keyed by name, and the per-backend stats
keyed service:ip:port. -/
structure LBState where
  services : List Service
  service_state : List (String × ServiceState)
  server_stats : List (String × Stats)
deriving DecidableEq

/-- remove_service endpoint (lines 571-584): find the service (404 when
absent), terminate its listener when alive, remove the entry from
SERVICES and delete its service_state record, then persist. No statement
of the handler touches the server_stats dictionary. -/
def remove_service (st : LBState) (name : String) : LBState × Except ApiErr String :=
  match st.services.find? (fun s => s.name == name) with
  | none => (st, Except.error (404, "Service not found"))
  | some _ =>
      ({ services := st.services.eraseP (fun s => s.name == name)
         service_state := st.service_state.eraseP (fun p => p.1 == name)
         server_stats := st.server_stats },
       Except.ok ("Service \x27" ++ name ++ "\x27 removed successfully."))

/-- Sample full state with one service, its runtime record and one
per-backend stats entry. -/
def stA : LBState :=
  { services := [svcA]
    service_state := [("A", ⟨some "1.1.1.1:80", 0, true, 1, some 100⟩)]
    server_stats := [("A:1.1.1.1:80", ⟨7, 4, 3⟩)] }

/-- C9 counterexample: removing service A succeeds and deletes the
service and its runtime record, yet the per-backend stats entry keyed
A:1.1.1.1:80 is still present afterwards, so the claimed purge of all
stats keyed by the service name does not happen. -/
theorem remove_service_stats_counterexample :
    (remove_service stA "A").2 =
      Except.ok "Service \x27A\x27 removed successfully." ∧
    (remove_service stA "A").1.services = [] ∧
    (remove_service stA "A").1.service_state = [] ∧
    (remove_service stA "A").1.server_stats = [("A:1.1.1.1:80", ⟨7, 4, 3⟩)] :=
  ⟨rfl, rfl, rfl, rfl⟩

/-- C9 (amended): for an existing name remove_service returns ok, tears
down the forwarder, removes the service entry and deletes its runtime
record, but leaves the per-backend stats untouched, so entries keyed by
the removed service name remain; for a missing name it returns NotFound
and changes nothing. -/
theorem remove_service_spec (st : LBState) (name : String) :
    (st.services.find? (fun s => s.name == name) = none →
      remove_service st name = (st, Except.error (404, "Service not found"))) ∧
    (∀ svc, st.services.find? (fun s => s.name == name) = some svc →
      remove_service st name =
        ({ services := st.services.eraseP (fun s => s.name == name)
           service_state := st.service_state.eraseP (fun p => p.1 == name)
           server_stats := st.server_stats },
         Except.ok ("Service \x27" ++ name ++ "\x27 removed successfully."))) := by
  constructor
  · intro hf
    simp [remove_service, hf]
  · intro svc hf
    simp [remove_service, hf]

theorem remove_service_spec_witness :
    remove_service stA "A" =
      ({ services := []
         service_state := []
         server_stats := [("A:1.1.1.1:80", ⟨7, 4, 3⟩)] },
       Except.ok "Service \x27A\x27 removed successfully.") :=
  (remove_service_spec stA "A").2 svcA rfl

end SocatBalancer
